import Mathlib

/-!
Verification of the ml-pipeline service (services/ml-pipeline) against its
natural-language specification.  The Python source is shallowly embedded:
dictionaries become association lists over `String`, floats become exact
rationals (`ℚ`), database tables become Lean lists of records, and each
service method becomes a pure function on that state.
-/

namespace MLPipeline

/-- Association-list lookup, mirroring Python `dict.get(key)`: the first
binding for the key, if any. -/
def dictGet {α : Type} (d : List (String × α)) (k : String) : Option α :=
  match d with
  | [] => none
  | (k2, v) :: rest => if k2 = k then some v else dictGet rest k

/-! ## monitoring.py — PerformanceMonitor -/

/-- `PerformanceMonitor.performance_thresholds` from monitoring.py. -/
def performance_thresholds : List (String × ℚ) :=
  [("accuracy", 8/10), ("precision", 3/4), ("recall", 3/4), ("f1_score", 3/4)]

/-- `PerformanceMonitor.drift_thresholds` from monitoring.py. -/
def drift_thresholds : List (String × ℚ) :=
  [("feature_drift", 1/10), ("concept_drift", 3/20)]

/-- One alert dictionary appended by `check_model_performance`. -/
structure PerformanceAlert where
  type : String
  metric : String
  current_value : ℚ
  threshold : ℚ
  severity : String
  deriving Repr, DecidableEq

/-- The alert literal built inside `check_model_performance` for a metric
whose value is below its threshold. -/
def performanceAlertFor (metric : String) (value threshold : ℚ) : PerformanceAlert :=
  { type := "performance_degradation"
    metric := metric
    current_value := value
    threshold := threshold
    severity := if value < threshold * (9/10) then "high" else "medium" }

/-- Loop body of `check_model_performance`: state is (status, alerts). -/
def stepPerf (acc : String × List PerformanceAlert) (m : String × ℚ) :
    String × List PerformanceAlert :=
  match dictGet performance_thresholds m.1 with
  | some threshold =>
      if m.2 < threshold then
        ("degraded", acc.2 ++ [performanceAlertFor m.1 m.2 threshold])
      else acc
  | none => acc

/-- `PerformanceMonitor.check_model_performance` from monitoring.py: iterates
over the supplied metrics, comparing each against the threshold table. -/
def check_model_performance (current_metrics : List (String × ℚ)) :
    String × List PerformanceAlert :=
  current_metrics.foldl stepPerf ("healthy", [])

/-- The per-feature drift-detail entry built by `detect_data_drift`. -/
structure DriftDetail where
  drift_score : ℚ
  threshold : ℚ
  deriving Repr, DecidableEq

/-- Loop body of `detect_data_drift`: state is (drift_detected, drift_details). -/
def stepDrift (acc : Bool × List (String × DriftDetail)) (fs : String × List (String × ℚ)) :
    Bool × List (String × DriftDetail) :=
  let drift_score := (dictGet fs.2 "drift_score").getD 0
  let threshold := (dictGet drift_thresholds "feature_drift").getD 0
  if drift_score > threshold then
    (true, acc.2 ++ [(fs.1, { drift_score := drift_score, threshold := threshold })])
  else acc

/-- `PerformanceMonitor.detect_data_drift` from monitoring.py: each feature's
statistics dictionary contributes `stats.get("drift_score", 0.0)`. -/
def detect_data_drift (feature_statistics : List (String × List (String × ℚ))) :
    Bool × List (String × DriftDetail) :=
  feature_statistics.foldl stepDrift (false, [])

/-! ## ml_service.py — feature preparation and post-processing -/

/-- The `feature_names` table inside `MLService._prepare_features`. -/
def feature_names : List (String × List String) :=
  [("user_behavior", ["activity_score", "project_count", "collaboration_score", "ai_usage_frequency"]),
   ("project_success", ["complexity_score", "team_size", "duration_estimate", "technology_maturity"]),
   ("resource_usage", ["current_cpu", "current_memory", "current_storage", "user_count"]),
   ("anomaly_detection", ["cpu_usage", "memory_usage", "request_rate", "error_rate"])]

/-- `MLService._prepare_features`: selects the registered feature-name list
for the model type (or the first four attribute keys when the type is not in
the table) and reads each value with default 0.0. -/
def _prepare_features (features : List (String × ℚ)) (model_type : String) : List ℚ :=
  let selected_features :=
    match dictGet feature_names model_type with
    | some ns => ns
    | none => (features.map Prod.fst).take 4
  selected_features.map fun name => (dictGet features name).getD 0

/-- `MLService._classify_engagement` from ml_service.py. -/
def _classify_engagement (churn_prob : ℚ) : String :=
  if churn_prob < 3/10 then "high"
  else if churn_prob < 7/10 then "medium"
  else "low"

/-! ## ml_service.py — model registry state (the `ml_models` table) -/

/-- One row of the `ml_models` table (database.py), restricted to the columns
the deploy path touches.  Timestamps are abstracted to `Nat`. -/
structure ModelRecord where
  id : String
  model_type : String
  version : String
  status : String
  deployment_date : Option Nat
  deriving Repr, DecidableEq

/-- `MLService.deploy_model`: the single UPDATE it issues sets
`status = "deployed"` and `deployment_date` on every row matching
`(model_type, version)`; no other row is touched. -/
def deploy_model (db : List ModelRecord) (model_type version : String) (now : Nat) :
    List ModelRecord :=
  db.map fun r =>
    if r.model_type = model_type ∧ r.version = version then
      { r with status := "deployed", deployment_date := some now }
    else r

/-- Number of rows of a model type whose status is "deployed". -/
def countDeployed (db : List ModelRecord) (model_type : String) : Nat :=
  (db.filter fun r => r.model_type = model_type ∧ r.status = "deployed").length

/-! ## ml_service.py — training jobs (the `training_jobs` table) -/

/-- One row of the `training_jobs` table (database.py). -/
structure TrainingJob where
  id : String
  model_type : String
  status : String
  progress : Option ℚ
  performance_metrics : Option (List (String × ℚ))
  error_message : Option String
  created_at : Nat
  started_at : Option Nat
  completed_at : Option Nat
  deriving Repr, DecidableEq

/-- An UPDATE on `training_jobs` filtered by `id`, as every job-mutating query
in ml_service.py is written. -/
def update_job (jobs : List TrainingJob) (job_id : String)
    (f : TrainingJob → TrainingJob) : List TrainingJob :=
  jobs.map fun j => if j.id = job_id then f j else j

/-- `MLService.cancel_job`: unconditionally sets `status = "cancelled"` and
`completed_at` on the matching row (there is no check of the current status). -/
def cancel_job (jobs : List TrainingJob) (job_id : String) (now : Nat) :
    List TrainingJob :=
  update_job jobs job_id fun j => { j with status := "cancelled", completed_at := some now }

/-- The two tables the training task can touch. -/
structure PipelineDB where
  ml_models : List ModelRecord
  training_jobs : List TrainingJob
  deriving Repr, DecidableEq

/-- The progress ticks the simulated training loop writes. -/
def progressTicks : List ℚ := [2/10, 4/10, 6/10, 8/10, 1]

/-- The successful path of `train_model_task` (ml_service.py, the
`train_model` Celery task): mark the job running, write the progress ticks,
then mark it completed with the produced metrics.  Every statement is an
UPDATE of `training_jobs`; nothing inserts into `ml_models`. -/
def train_model_task_success (db : PipelineDB) (job_id : String)
    (performance_metrics : List (String × ℚ)) (startT endT : Nat) : PipelineDB :=
  let s1 : PipelineDB :=
    { db with training_jobs := update_job db.training_jobs job_id fun j =>
        { j with status := "running", started_at := some startT, progress := some 0 } }
  let s2 : PipelineDB := progressTicks.foldl
    (fun s p =>
      { s with training_jobs := update_job s.training_jobs job_id fun j =>
          { j with progress := some p } })
    s1
  { s2 with training_jobs := update_job s2.training_jobs job_id fun j =>
      { j with status := "completed", completed_at := some endT,
               performance_metrics := some performance_metrics } }

/-! ## ml_service.py — model resolution -/

/-- A predictor object held in `self.models`: either something loaded from
storage or a freshly constructed scikit-learn default. -/
inductive SKModel where
  | randomForestClassifier (n_estimators random_state : Nat)
  | randomForestRegressor (n_estimators random_state : Nat)
  | stored (name : String)
  deriving Repr, DecidableEq

/-- `MLService._create_default_model` from ml_service.py. -/
def _create_default_model (model_type : String) : SKModel :=
  if model_type = "user_behavior" ∨ model_type = "project_success"
      ∨ model_type = "anomaly_detection" then
    SKModel.randomForestClassifier 100 42
  else
    SKModel.randomForestRegressor 100 42

/-- `MLService._get_model`: looks up `"{model_type}_{version or 'latest'}"`,
falls back to `"{model_type}_latest"`, and when neither key is present stores
and returns a default model.  Returns the model and the updated registry. -/
def _get_model (models : List (String × SKModel)) (model_type : String)
    (version : Option String) : SKModel × List (String × SKModel) :=
  let model_key := model_type ++ "_" ++ version.getD "latest"
  match dictGet models model_key with
  | some m => (m, models)
  | none =>
      let key2 := model_type ++ "_latest"
      match dictGet models key2 with
      | some m => (m, models)
      | none =>
          let m := _create_default_model model_type
          (m, models ++ [(key2, m)])

/-! ## ml_service.py — the user-behavior prediction path -/

/-- The `predictions` dictionary built by `predict_user_behavior`. -/
structure BehaviorPredictions where
  churn_probability : ℚ
  engagement_level : String
  next_activity : String
  deriving Repr, DecidableEq

/-- The `confidence_scores` dictionary built by `predict_user_behavior`. -/
structure BehaviorConfidence where
  churn_probability : ℚ
  engagement_level : ℚ
  next_activity : ℚ
  deriving Repr, DecidableEq

/-- One row of the `predictions` table, as `_store_prediction` writes it for
the user-behavior path. -/
structure PredictionRecord where
  id : String
  model_type : String
  user_id : Option String
  project_id : Option String
  features : List (String × ℚ)
  predictions : BehaviorPredictions
  confidence_scores : BehaviorConfidence
  deriving Repr, DecidableEq

/-- The response returned by `predict_user_behavior` (metadata omitted). -/
structure PredictionResponse where
  prediction_id : String
  predictions : BehaviorPredictions
  confidence_scores : BehaviorConfidence
  deriving Repr, DecidableEq

/-- Python `max(d, key=d.get)` over an insertion-ordered dictionary: the first
key attaining the maximal value. -/
def argmaxFirst (x : String × ℚ) (xs : List (String × ℚ)) : String :=
  (xs.foldl (fun acc p => if p.2 > acc.2 then p else acc) x).1

/-- `MLService._predict_next_activity` from ml_service.py. -/
def _predict_next_activity (features : List (String × ℚ)) : String :=
  argmaxFirst ("code_generation", (dictGet features "ai_usage_frequency").getD (1/2))
    [("project_creation", ((dictGet features "project_count").getD 0) / 10),
     ("collaboration", (dictGet features "collaboration_score").getD (1/2)),
     ("documentation", 3/10)]

/-- `MLService.predict_user_behavior`: the predictor capability
(`model.predict_proba`) is supplied as a function returning the two class
probabilities; the optional scaler transforms the feature vector.  The method
validates nothing, prepares the feature vector, invokes the predictor,
appends one row to the `predictions` table and returns the response. -/
def predict_user_behavior (predict_proba : List ℚ → ℚ × ℚ)
    (scaler : Option (List ℚ → List ℚ)) (preds_db : List PredictionRecord)
    (prediction_id user_id : String) (features : List (String × ℚ)) :
    PredictionResponse × List PredictionRecord :=
  let feature_vector := _prepare_features features "user_behavior"
  let scaled := match scaler with
    | some s => s feature_vector
    | none => feature_vector
  let predictions_raw := predict_proba scaled
  let preds : BehaviorPredictions :=
    { churn_probability := predictions_raw.2
      engagement_level := _classify_engagement predictions_raw.2
      next_activity := _predict_next_activity features }
  let confidence : BehaviorConfidence :=
    { churn_probability := max predictions_raw.1 predictions_raw.2
      engagement_level := 85/100
      next_activity := 72/100 }
  let row : PredictionRecord :=
    { id := prediction_id, model_type := "user_behavior", user_id := some user_id,
      project_id := none, features := features, predictions := preds,
      confidence_scores := confidence }
  ({ prediction_id := prediction_id, predictions := preds,
     confidence_scores := confidence },
   preds_db ++ [row])

/-! ## Spec-side descriptions (from the spec's words, for comparison) -/

/-- Spec description of `evaluate(modelType, metrics)`: one alert per metric
whose value is below its configured threshold. -/
def specPerformanceAlerts (metrics : List (String × ℚ)) : List PerformanceAlert :=
  metrics.filterMap fun m =>
    match dictGet performance_thresholds m.1 with
    | some t => if m.2 < t then some (performanceAlertFor m.1 m.2 t) else none
    | none => none

/-- A feature's drift score as `detect_data_drift` reads it:
`stats.get("drift_score", 0.0)`. -/
def driftScoreOf (stats : List (String × ℚ)) : ℚ :=
  (dictGet stats "drift_score").getD 0

/-- Spec description of one feature's contribution to the drift details. -/
def specDriftEntry (p : String × List (String × ℚ)) : Option (String × DriftDetail) :=
  if driftScoreOf p.2 > 1/10 then
    some (p.1, { drift_score := driftScoreOf p.2, threshold := 1/10 })
  else none

/-- Spec description of the drift report details: exactly the features whose
drift score exceeds the fixed threshold 0.1. -/
def specDriftDetails (fs : List (String × List (String × ℚ))) :
    List (String × DriftDetail) :=
  fs.filterMap specDriftEntry

/-! ## Helper lemmas -/

theorem stepPerf_snd_fold (metrics : List (String × ℚ)) (st : String)
    (acc : List PerformanceAlert) :
    (metrics.foldl stepPerf (st, acc)).2 = acc ++ specPerformanceAlerts metrics := by
  induction metrics generalizing st acc with
  | nil => simp [specPerformanceAlerts]
  | cons m rest ih =>
      simp only [List.foldl_cons, specPerformanceAlerts, List.filterMap_cons]
      cases h : dictGet performance_thresholds m.1 with
      | none => simp [stepPerf, h, ih, specPerformanceAlerts]
      | some t =>
          by_cases hv : m.2 < t
          · simp [stepPerf, h, hv, ih, specPerformanceAlerts]
          · simp [stepPerf, h, hv, ih, specPerformanceAlerts]

theorem specAlert_severity (metrics : List (String × ℚ)) (a : PerformanceAlert)
    (ha : a ∈ specPerformanceAlerts metrics) :
    (a.severity = "high" ↔ a.current_value < a.threshold * (9/10))
    ∧ (a.severity = "medium" ↔ a.threshold * (9/10) ≤ a.current_value) := by
  simp only [specPerformanceAlerts, List.mem_filterMap] at ha
  obtain ⟨m, _, hsome⟩ := ha
  revert hsome
  cases h : dictGet performance_thresholds m.1 with
  | none => simp
  | some t =>
      by_cases hv : m.2 < t
      · simp only [hv, if_true, Option.some.injEq]
        intro hEq
        subst hEq
        by_cases hs : m.2 < t * (9/10)
        · simp +decide [performanceAlertFor, hs]
        · simp +decide [performanceAlertFor, hs, not_lt.mp hs]
      · simp [hv]

theorem drift_feature_threshold_eval :
    (dictGet drift_thresholds "feature_drift").getD 0 = 1/10 := by
  simp [dictGet, drift_thresholds]

theorem stepDrift_eq (acc : Bool × List (String × DriftDetail))
    (p : String × List (String × ℚ)) :
    stepDrift acc p
      = if driftScoreOf p.2 > 1/10 then
          (true, acc.2 ++ [(p.1, { drift_score := driftScoreOf p.2, threshold := 1/10 })])
        else acc := by
  simp [stepDrift, driftScoreOf, drift_feature_threshold_eval]

theorem stepDrift_fold (fs : List (String × List (String × ℚ))) (b : Bool)
    (acc : List (String × DriftDetail)) :
    fs.foldl stepDrift (b, acc)
      = (b || fs.any (fun p => decide (driftScoreOf p.2 > 1/10)),
         acc ++ specDriftDetails fs) := by
  induction fs generalizing b acc with
  | nil => simp [specDriftDetails]
  | cons p rest ih =>
      rw [List.foldl_cons, stepDrift_eq]
      by_cases hv : driftScoreOf p.2 > 1/10
      · have hentry : specDriftEntry p
            = some (p.1, { drift_score := driftScoreOf p.2, threshold := 1/10 }) := by
          simp only [specDriftEntry, if_pos hv]
        rw [if_pos hv, ih]
        simp only [specDriftDetails, List.filterMap_cons, hentry, List.any_cons,
                   decide_eq_true hv]
        simp
      · have hentry : specDriftEntry p = none := by
          simp only [specDriftEntry, if_neg hv]
        rw [if_neg hv, ih]
        simp only [specDriftDetails, List.filterMap_cons, hentry, List.any_cons,
                   decide_eq_false hv]
        simp

/-! ## Claim theorems: monitoring and post-processing -/

/-- C10: the engagement-level post-processing is total and deterministic with
exactly these buckets: "high" iff churn probability < 0.3, "medium" iff
0.3 ≤ p < 0.7, and "low" otherwise. -/
theorem classify_engagement_buckets (p : ℚ) :
    (_classify_engagement p = "high" ↔ p < 3/10)
    ∧ (_classify_engagement p = "medium" ↔ 3/10 ≤ p ∧ p < 7/10)
    ∧ (_classify_engagement p = "low" ↔ 7/10 ≤ p) := by
  rcases lt_or_le p (3/10) with h1 | h1
  · have h2 : ¬ (3/10 : ℚ) ≤ p := not_le.mpr h1
    have h3 : ¬ (7/10 : ℚ) ≤ p := not_le.mpr (by linarith)
    simp +decide [_classify_engagement, h1, h2, h3]
  · rcases lt_or_le p (7/10) with h2 | h2
    · have h4 : ¬ p < 3/10 := not_lt.mpr h1
      simp +decide [_classify_engagement, h4, h2, h1, not_le.mpr h2]
    · have h4 : ¬ p < 3/10 := not_lt.mpr (by linarith)
      have h5 : ¬ p < 7/10 := not_lt.mpr h2
      simp +decide [_classify_engagement, h4, h5, h2]

/-- C6: `check_model_performance` produces one alert per metric whose value is
below its configured threshold, with severity "high" exactly when the value is
below 90% of the threshold and "medium" exactly when it is below the threshold
but at least 90% of it; in particular `{accuracy: 0.65}` against threshold 0.8
yields exactly one alert, of severity "high". -/
theorem check_model_performance_spec :
    (∀ metrics : List (String × ℚ),
        (check_model_performance metrics).2 = specPerformanceAlerts metrics
        ∧ ∀ a ∈ (check_model_performance metrics).2,
            (a.severity = "high" ↔ a.current_value < a.threshold * (9/10))
            ∧ (a.severity = "medium" ↔ a.threshold * (9/10) ≤ a.current_value))
    ∧ check_model_performance [("accuracy", 13/20)]
        = ("degraded",
           [{ type := "performance_degradation", metric := "accuracy",
              current_value := 13/20, threshold := 8/10, severity := "high" }]) := by
  constructor
  · intro metrics
    have h2 : (check_model_performance metrics).2 = specPerformanceAlerts metrics := by
      simpa [check_model_performance] using stepPerf_snd_fold metrics "healthy" []
    exact ⟨h2, fun a ha => specAlert_severity metrics a (h2 ▸ ha)⟩
  · norm_num [check_model_performance, stepPerf, performance_thresholds, dictGet,
              performanceAlertFor]

/-- C9: `detect_data_drift` reports drift exactly when at least one feature's
drift score exceeds the fixed threshold 0.1, and the drift details contain
exactly the features whose drift score exceeds that threshold. -/
theorem detect_data_drift_spec (fs : List (String × List (String × ℚ))) :
    ((detect_data_drift fs).1 = true ↔ ∃ p ∈ fs, driftScoreOf p.2 > 1/10)
    ∧ (detect_data_drift fs).2 = specDriftDetails fs := by
  have h := stepDrift_fold fs false []
  constructor
  · rw [detect_data_drift, h]
    simp [List.any_eq_true]
  · rw [detect_data_drift, h]
    simp

/-! ## Claim theorems: model registry (deploy) -/

/-- A registry holding two trained versions of the same model type. -/
def registryTwoTrained : List ModelRecord :=
  [{ id := "m1", model_type := "user_behavior", version := "v1",
     status := "trained", deployment_date := none },
   { id := "m2", model_type := "user_behavior", version := "v2",
     status := "trained", deployment_date := none }]

/-- C1 counterexample: after deploying v1 and then v2 of the same model type,
BOTH records have status "deployed" — the previous deployed version is not
retired, so the "exactly one deployed" invariant fails. -/
theorem deploy_twice_two_deployed :
    countDeployed
      (deploy_model (deploy_model registryTwoTrained "user_behavior" "v1" 0)
        "user_behavior" "v2" 1) "user_behavior" = 2 := by
  decide

/-- C1 (amended): `deploy_model` sets every record matching
`(model_type, version)` to status "deployed" and leaves every other record —
a previously deployed one of the same model type included — entirely
unchanged; nothing is transitioned to "retired", so several records of one
model type can be "deployed" at once. -/
theorem deploy_model_statuses (db : List ModelRecord) (mt v : String) (now : Nat) :
    (deploy_model db mt v now).map ModelRecord.status
      = db.map (fun r => if r.model_type = mt ∧ r.version = v then "deployed" else r.status)
    ∧ ∀ r ∈ db, ¬(r.model_type = mt ∧ r.version = v) → r ∈ deploy_model db mt v now := by
  constructor
  · simp only [deploy_model, List.map_map]
    refine List.map_congr_left fun r _ => ?_
    by_cases h : r.model_type = mt ∧ r.version = v
    · simp [h]
    · simp [h]
  · intro r hr hne
    simp only [deploy_model, List.mem_map]
    exact ⟨r, hr, by simp [hne]⟩

/-! ## Claim theorems: training-job lifecycle -/

/-- A pending training job as `start_training_job` inserts it. -/
def jobPendingRow : TrainingJob :=
  { id := "job-1", model_type := "user_behavior", status := "pending", progress := none,
    performance_metrics := none, error_message := none, created_at := 0,
    started_at := none, completed_at := none }

/-- C2 counterexample: a training job that runs the successful-completion path
creates no ModelRecord at all (the claim demands exactly one): the `ml_models`
table stays empty while the job ends "completed". -/
theorem train_success_creates_no_model_record :
    ((train_model_task_success { ml_models := [], training_jobs := [jobPendingRow] }
        "job-1" [("accuracy", 9/10)] 1 2).ml_models.length = 0)
    ∧ ((train_model_task_success { ml_models := [], training_jobs := [jobPendingRow] }
        "job-1" [("accuracy", 9/10)] 1 2).training_jobs.map TrainingJob.status
        = ["completed"]) := by
  constructor <;> rfl

/-- C2 (amended): the successful-completion path of `train_model_task` leaves
the `ml_models` table untouched — no ModelRecord is created and so none is
deployed; it only rewrites the job's own row to status "completed" with the
produced metrics, final progress 1 and its timestamps. -/
theorem train_success_tables (db : PipelineDB) (job_id : String)
    (metrics : List (String × ℚ)) (t0 t1 : Nat) :
    (train_model_task_success db job_id metrics t0 t1).ml_models = db.ml_models
    ∧ (train_model_task_success db job_id metrics t0 t1).training_jobs
        = update_job db.training_jobs job_id fun j =>
            { j with status := "completed", progress := some 1,
                     performance_metrics := some metrics,
                     started_at := some t0, completed_at := some t1 } := by
  constructor
  · rfl
  · simp only [train_model_task_success, progressTicks, List.foldl_cons, List.foldl_nil,
               update_job, List.map_map]
    refine List.map_congr_left fun j _ => ?_
    by_cases h : j.id = job_id
    · simp [h]
    · simp [h]

/-- A job already in the terminal state "completed". -/
def completedJobRow : TrainingJob :=
  { id := "j1", model_type := "user_behavior", status := "completed", progress := some 1,
    performance_metrics := none, error_message := none, created_at := 0,
    started_at := some 1, completed_at := some 2 }

/-- C5 counterexample: cancelling an already-completed job is not a no-op —
its status flips from "completed" to "cancelled" and completed_at is
overwritten. -/
theorem cancel_completed_job_changes_status :
    completedJobRow.status = "completed"
    ∧ cancel_job [completedJobRow] "j1" 3
        = [{ completedJobRow with status := "cancelled", completed_at := some 3 }] := by
  constructor <;> rfl

/-- C5 (amended): `cancel_job` unconditionally rewrites the matching job to
status "cancelled" with a fresh completed_at, whatever its current status —
terminal jobs included, so cancellation of a terminal job is NOT a no-op.
All other fields are kept, so a pending job does end "cancelled" with
started_at still unset; non-matching jobs are untouched. -/
theorem cancel_job_unconditional (jobs : List TrainingJob) (job_id : String) (now : Nat) :
    (∀ j ∈ jobs, j.id = job_id →
        { j with status := "cancelled", completed_at := some now }
          ∈ cancel_job jobs job_id now)
    ∧ ∀ j ∈ jobs, j.id ≠ job_id → j ∈ cancel_job jobs job_id now := by
  constructor
  · intro j hj h
    simp only [cancel_job, update_job, List.mem_map]
    exact ⟨j, hj, by simp [h]⟩
  · intro j hj h
    simp only [cancel_job, update_job, List.mem_map]
    exact ⟨j, hj, by simp [h]⟩

/-! ## Claim theorems: model resolution -/

/-- C4 counterexample: with no model loaded for the model type and no version
requested, `_get_model` does not fail with ModelNotFoundError: it silently
returns a fresh default RandomForest model and caches it. -/
theorem get_model_empty_returns_default :
    _get_model [] "user_behavior" none
      = (SKModel.randomForestClassifier 100 42,
         [("user_behavior_latest", SKModel.randomForestClassifier 100 42)]) := by
  rfl

/-- C4 (amended): when neither the requested key nor the `latest` key is
loaded, `_get_model` returns `_create_default_model model_type` (a default
RandomForest) and stores it under the `latest` key — prediction proceeds
against this substitute model instead of failing. -/
theorem get_model_fallback_default (models : List (String × SKModel))
    (model_type : String) (version : Option String)
    (h1 : dictGet models (model_type ++ "_" ++ version.getD "latest") = none)
    (h2 : dictGet models (model_type ++ "_latest") = none) :
    _get_model models model_type version
      = (_create_default_model model_type,
         models ++ [(model_type ++ "_latest", _create_default_model model_type)]) := by
  simp only [_get_model, h1, h2]

/-- Concrete instance of `get_model_fallback_default` on the empty registry. -/
theorem get_model_fallback_default_witness :
    _get_model [] "anomaly_detection" none
      = (_create_default_model "anomaly_detection",
         [("anomaly_detection_latest", _create_default_model "anomaly_detection")]) :=
  get_model_fallback_default [] "anomaly_detection" none rfl rfl

/-! ## Claim theorems: feature encoding -/

/-- C7 counterexample: encoding with a model type that has no registered
feature schema does not fail with UnknownModelTypeError: the first attribute
keys are used as the feature list instead. -/
theorem prepare_features_unknown_type_cex :
    _prepare_features [("a", 1), ("b", 2)] "nonexistent_model" = [1, 2] := by
  simp +decide [_prepare_features, dictGet, feature_names]

/-- C7 (amended): for a model type with no registered feature schema,
`_prepare_features` raises no error; it falls back to the first (up to four)
attribute keys as the feature-name list and encodes those. -/
theorem prepare_features_unknown_type (features : List (String × ℚ)) (model_type : String)
    (h : dictGet feature_names model_type = none) :
    _prepare_features features model_type
      = ((features.map Prod.fst).take 4).map fun n => (dictGet features n).getD 0 := by
  simp only [_prepare_features, h]

/-- Concrete instance of `prepare_features_unknown_type`. -/
theorem prepare_features_unknown_type_witness :
    _prepare_features [("a", 1), ("b", 2), ("c", 3), ("d", 4), ("e", 5)] "no_such_type"
      = (([("a", (1:ℚ)), ("b", 2), ("c", 3), ("d", 4), ("e", 5)].map Prod.fst).take 4).map
          (fun n => (dictGet [("a", (1:ℚ)), ("b", 2), ("c", 3), ("d", 4), ("e", 5)] n).getD 0) :=
  prepare_features_unknown_type _ _ rfl

/-- C8: for a model type with a registered feature schema, the encoded vector
is ordered by the fixed feature-name list; each name reads its attribute value
and every name absent from the attribute bag contributes the default 0.0, so
missing features never cause an error. -/
theorem prepare_features_registered (features : List (String × ℚ)) (model_type : String)
    (names : List String) (h : dictGet feature_names model_type = some names) :
    _prepare_features features model_type = names.map (fun n => (dictGet features n).getD 0)
    ∧ (_prepare_features features model_type).length = names.length := by
  refine ⟨by simp only [_prepare_features, h], ?_⟩
  simp only [_prepare_features, h, List.length_map]

/-- Concrete instance of `prepare_features_registered`: one supplied feature,
three missing ones defaulted to 0. -/
theorem prepare_features_registered_witness :
    _prepare_features [("activity_score", (2:ℚ))] "user_behavior"
      = ["activity_score", "project_count", "collaboration_score", "ai_usage_frequency"].map
          (fun n => (dictGet [("activity_score", (2:ℚ))] n).getD 0)
    ∧ _prepare_features [("activity_score", (2:ℚ))] "user_behavior" = [2, 0, 0, 0] := by
  refine ⟨(prepare_features_registered [("activity_score", (2:ℚ))] "user_behavior"
    ["activity_score", "project_count", "collaboration_score", "ai_usage_frequency"] rfl).1, ?_⟩
  simp +decide [_prepare_features, dictGet, feature_names]

/-! ## Claim theorems: prediction path -/

/-- A trivial predictor capability returning equal class probabilities. -/
def constHalfProba : List ℚ → ℚ × ℚ := fun _ => (1/2, 1/2)

/-- C3 counterexample: calling `predict_user_behavior` with the empty
attributes map does not fail — it completes and writes one PredictionRecord
(all features defaulted to 0). -/
theorem predict_empty_attrs_writes_record :
    (predict_user_behavior constHalfProba none [] "p1" "u1" []).2
      = [{ id := "p1", model_type := "user_behavior", user_id := some "u1",
           project_id := none, features := [],
           predictions := { churn_probability := 1/2, engagement_level := "medium",
                            next_activity := "code_generation" },
           confidence_scores := { churn_probability := 1/2, engagement_level := 85/100,
                                  next_activity := 72/100 } }] := by
  norm_num [predict_user_behavior, constHalfProba, _classify_engagement,
            _predict_next_activity, argmaxFirst, dictGet, _prepare_features, feature_names]

/-- C3 (amended): `predict_user_behavior` validates nothing: for every
predictor, scaler and attribute bag — the empty bag included — it appends
exactly one PredictionRecord to the predictions store, and the empty
attribute map is encoded as the all-defaults vector [0, 0, 0, 0]. -/
theorem predict_user_behavior_no_validation (predict_proba : List ℚ → ℚ × ℚ)
    (scaler : Option (List ℚ → List ℚ)) (db : List PredictionRecord)
    (prediction_id user_id : String) (features : List (String × ℚ)) :
    (∃ row, (predict_user_behavior predict_proba scaler db prediction_id user_id
        features).2 = db ++ [row])
    ∧ _prepare_features [] "user_behavior" = [0, 0, 0, 0] := by
  constructor
  · exact ⟨_, rfl⟩
  · simp +decide [_prepare_features, dictGet, feature_names]

end MLPipeline
